import Mathlib

/-!
Shallow embedding of `pkg/module/util.go` from the kusion-module-framework
repository: pure helper functions that wrap Kubernetes and Terraform
resource descriptions into a unified resource record, derive stable
resource identifiers, and synthesize Terraform provider-registry metadata.

Go strings are modelled as Lean `String`; `strings.Split` with the
single-character separators used by the code ("/" and ":") is modelled by
`splitChar` over the underlying character list; `strings.Join` is
modelled by `goJoin`; Go dynamic `any` values are modelled by the
inductive `GoValue`; Go maps built and consumed by this code are
modelled as association lists; fallible functions return `Except`, and a
Go runtime panic (failed type assertion) is an explicit result
constructor.
-/

namespace KusionModule

/-- Dynamic Go value (`any` / `interface{}`): enough constructors to be
    genuinely heterogeneous, as the maps flowing through this code are. -/
inductive GoValue where
  | str (s : String)
  | int (n : Int)
  | bool (b : Bool)
  | null
  | list (xs : List GoValue)
  | map (kvs : List (String × GoValue))

/-- The `v1.GenericConfig` type: `map[string]any`, modelled as an
    association list with string keys. -/
abbrev GenericConfig := List (String × GoValue)

/-- Go `strings.Split` restricted to a single-character separator,
    on the character-list level: splits around every occurrence of `c`,
    keeping empty segments, and yields `[[]]` on the empty input —
    exactly `strings.Split`'s semantics for a non-empty separator. -/
def splitChar (c : Char) : List Char → List (List Char)
  | [] => [[]]
  | x :: xs =>
    match splitChar c xs with
    | [] => [[]]
    | r :: rs => if x = c then [] :: r :: rs else (x :: r) :: rs

/-- Go `strings.Split(s, sep)` for the one-character separators used in
    `util.go`. -/
def goSplit (c : Char) (s : String) : List String :=
  (splitChar c s.data).map String.mk

/-- Go `strings.Join(elems, sep)`. -/
def goJoin (sep : String) : List String → String
  | [] => ""
  | [x] => x
  | x :: xs => x ++ sep ++ goJoin sep xs

/-- The fixed default Terraform registry host (`defaultTFHost` in
    `util.go`). -/
def defaultTFHost : String := "registry.terraform.io"

/-- Error kinds surfaced by the helpers in `util.go`:
    `ErrEmptyTFProviderVersion`, the two `fmt.Errorf` empty-input errors of
    `TerraformProviderExtensions`, and the invalid-source error (which
    carries the offending source string). -/
inductive ModuleError where
  | EmptyTFProviderVersion
  | EmptySource
  | EmptyResourceType
  | InvalidProviderSource (source : String)
  deriving DecidableEq, Repr

/-- The `ProviderConfig` struct of `util.go`. -/
structure ProviderConfig where
  Source : String
  Version : String
  ProviderMeta : GenericConfig

/-- The resource type tag (`v1.Kubernetes` / `v1.Terraform`). -/
inductive ResourceType where
  | Kubernetes
  | Terraform
  deriving DecidableEq, Repr

/-- The unified `v1.Resource` record. `Attributes` and `Extensions` are
    `map[string]any`, modelled as association lists; `DependsOn` is a
    slice of ids. -/
structure Resource where
  ID : String
  type : ResourceType
  Attributes : List (String × GoValue)
  DependsOn : List String
  Extensions : List (String × GoValue)

/-- The `metav1.TypeMeta` fields read by `KubernetesResourceID`. -/
structure TypeMeta where
  APIVersion : String
  Kind : String

/-- The `metav1.ObjectMeta` fields read by `KubernetesResourceID`. -/
structure ObjectMeta where
  Namespace : String
  Name : String

/-- `KubernetesResourceID` from `util.go`: the apiVersion and kind joined
    by colons, the namespace segment appended only when non-empty, then
    the name. -/
def KubernetesResourceID (typeMeta : TypeMeta) (objectMeta : ObjectMeta) : String :=
  let id := typeMeta.APIVersion ++ ":" ++ typeMeta.Kind ++ ":"
  let id := if objectMeta.Namespace ≠ "" then id ++ objectMeta.Namespace ++ ":" else id
  id ++ objectMeta.Name

/-- `UniqueAppName` from `util.go`. -/
def UniqueAppName (projectName stackName appName : String) : String :=
  projectName ++ "-" ++ stackName ++ "-" ++ appName

/-- `UniqueAppLabels` from `util.go`. -/
def UniqueAppLabels (projectName appName : String) : List (String × String) :=
  [("app.kubernetes.io/part-of", projectName),
   ("app.kubernetes.io/name", appName)]

/-- `TerraformResourceID` from `util.go`: rejects an empty version, splits
    the source on `/`, takes the namespace/name pair from a 3- or
    2-segment source, otherwise fails; joins namespace, name, resource
    type and resource name with colons. -/
def TerraformResourceID (providerCfg : ProviderConfig) (resType resName : String) :
    Except ModuleError String :=
  if providerCfg.Version = "" then
    .error .EmptyTFProviderVersion
  else
    let srcAttrs := goSplit '/' providerCfg.Source
    if srcAttrs.length = 3 then
      .ok (goJoin ":" [srcAttrs[1]!, srcAttrs[2]!, resType, resName])
    else if srcAttrs.length = 2 then
      .ok (goJoin ":" [srcAttrs[0]!, srcAttrs[1]!, resType, resName])
    else
      .error (.InvalidProviderSource providerCfg.Source)

/-- `TerraformProviderExtensions` from `util.go`: checks empty version,
    empty source and empty resource type in that order, then resolves the
    provider URL from the source's segment count (3 segments embed the
    host; 2 segments get the default registry host prepended), and
    returns the three-key extensions map. -/
def TerraformProviderExtensions (providerCfg : ProviderConfig) (resType : String) :
    Except ModuleError (List (String × GoValue)) :=
  if providerCfg.Version = "" then
    .error .EmptyTFProviderVersion
  else if providerCfg.Source = "" then
    .error .EmptySource
  else if resType = "" then
    .error .EmptyResourceType
  else
    let srcAttrs := goSplit '/' providerCfg.Source
    let providerURL? : Except ModuleError String :=
      if srcAttrs.length = 3 then
        .ok (goJoin "/" [providerCfg.Source, providerCfg.Version])
      else if srcAttrs.length = 2 then
        .ok (goJoin "/" [defaultTFHost, providerCfg.Source, providerCfg.Version])
      else
        .error (.InvalidProviderSource providerCfg.Source)
    providerURL?.map fun providerURL =>
      [("provider", GoValue.str providerURL),
       ("providerMeta", GoValue.map providerCfg.ProviderMeta),
       ("resourceType", GoValue.str resType)]

/-- `WrapTFResourceToKusionResource` from `util.go`: computes the
    extensions and, on success, assembles the Terraform resource record;
    on failure propagates the error unchanged. -/
def WrapTFResourceToKusionResource (providerCfg : ProviderConfig)
    (resType resourceID : String) (attributes : List (String × GoValue))
    (dependsOn : List String) : Except ModuleError Resource :=
  (TerraformProviderExtensions providerCfg resType).map fun extensions =>
    { ID := resourceID
      type := .Terraform
      Attributes := attributes
      DependsOn := dependsOn
      Extensions := extensions }

/-- Result of `TerraformProviderRegion`: the Go function either returns a
    string or panics on the unchecked type assertion `region.(string)`. -/
inductive RegionResult where
  | ok (s : String)
  | panicked
  deriving DecidableEq, Repr

/-- `TerraformProviderRegion` from `util.go`: looks up `"region"` in the
    provider metadata; absent keys yield `""`, a string value is returned,
    and any non-string value hits the unchecked assertion `region.(string)`
    and panics. -/
def TerraformProviderRegion (providerCfg : ProviderConfig) : RegionResult :=
  match providerCfg.ProviderMeta.lookup "region" with
  | none => .ok ""
  | some (.str s) => .ok s
  | some _ => .panicked

/-- The GVK extension key constant (`v1.ResourceExtensionGVK`, defined in
    the external kusion repository; its exact literal is not read by any
    claim here). -/
def ResourceExtensionGVK : String := "GVK"

/-- A Go value implementing `runtime.Object`, as consumed by
    `WrapK8sResourceToKusionResource`: it can report its GVK string, and
    its conversion to an unstructured map either yields the map or an
    error message. -/
structure RuntimeObject where
  gvk : String
  unstructured : Except String (List (String × GoValue))

/-- The dynamic `any` argument of `WrapK8sResourceToKusionResource`: a
    value that either does or does not implement `runtime.Object`. -/
inductive K8sAny where
  | obj (o : RuntimeObject)
  | other (v : GoValue)

/-- Result of `WrapK8sResourceToKusionResource`: a resource record, a
    conversion error, or a panic from the unchecked type assertion
    `resource.(runtime.Object)`. -/
inductive WrapK8sResult where
  | ok (r : Resource)
  | err (e : String)
  | panicked

/-- `WrapK8sResourceToKusionResource` from `util.go`: asserts the argument
    to `runtime.Object` (panicking if it is not one), extracts the GVK,
    converts the object to an unstructured map (propagating a conversion
    error), and assembles the Kubernetes resource record with the single
    GVK extension. -/
def WrapK8sResourceToKusionResource (id : String) (resource : K8sAny) : WrapK8sResult :=
  match resource with
  | .other _ => .panicked
  | .obj o =>
    match o.unstructured with
    | .error e => .err e
    | .ok unstructured =>
      .ok { ID := id
            type := .Kubernetes
            Attributes := unstructured
            DependsOn := []
            Extensions := [(ResourceExtensionGVK, GoValue.str o.gvk)] }

/-! Helper lemmas on the string model. -/

theorem str_append_assoc (a b c : String) : a ++ b ++ c = a ++ (b ++ c) := by
  apply String.ext
  simp [String.data_append, List.append_assoc]

theorem str_ne_empty_iff_data (s : String) : s ≠ "" ↔ s.data ≠ [] := by
  cases s with
  | mk data => cases data <;> simp [String.ext_iff]

theorem splitChar_ne_nil (c : Char) (l : List Char) : splitChar c l ≠ [] := by
  induction l with
  | nil => simp [splitChar]
  | cons x xs ih =>
    simp only [splitChar]
    cases h : splitChar c xs with
    | nil => simp
    | cons r rs => by_cases hxc : x = c <;> simp [hxc]

theorem splitChar_of_not_mem {c : Char} {l : List Char} (h : c ∉ l) :
    splitChar c l = [l] := by
  induction l with
  | nil => rfl
  | cons x xs ih =>
    have hx : ¬x = c := fun e => h (e ▸ List.mem_cons_self x xs)
    have hxs : c ∉ xs := fun m => h (List.mem_cons_of_mem _ m)
    simp [splitChar, ih hxs, hx]

theorem splitChar_append_of_not_mem {c : Char} {l₁ : List Char} (h : c ∉ l₁)
    {l₂ r : List Char} {rs : List (List Char)} (h₂ : splitChar c l₂ = r :: rs) :
    splitChar c (l₁ ++ l₂) = (l₁ ++ r) :: rs := by
  induction l₁ with
  | nil => simpa using h₂
  | cons x xs ih =>
    have hx : ¬x = c := fun e => h (e ▸ List.mem_cons_self x xs)
    have hxs : c ∉ xs := fun m => h (List.mem_cons_of_mem _ m)
    rw [List.cons_append]
    simp only [splitChar]
    rw [ih hxs]
    simp [hx]

theorem splitChar_cons_self (c : Char) (l : List Char) :
    splitChar c (c :: l) = [] :: splitChar c l := by
  simp only [splitChar]
  cases h : splitChar c l with
  | nil => exact absurd h (splitChar_ne_nil c l)
  | cons r rs => simp

theorem splitChar_sep {c : Char} {l₁ : List Char} (h : c ∉ l₁) (l₂ : List Char) :
    splitChar c (l₁ ++ c :: l₂) = l₁ :: splitChar c l₂ := by
  have happ := splitChar_append_of_not_mem h (splitChar_cons_self c l₂)
  simpa using happ

theorem goSplit_length (c : Char) (s : String) :
    (goSplit c s).length = (splitChar c s.data).length := by
  simp [goSplit]

theorem colon_data : (":" : String).data = [':'] := rfl

theorem goJoin_three (sep a b c : String) :
    goJoin sep [a, b, c] = a ++ sep ++ b ++ sep ++ c := by
  simp [goJoin, str_append_assoc]

theorem goJoin_four (sep a b c d : String) :
    goJoin sep [a, b, c, d] = a ++ sep ++ b ++ sep ++ c ++ sep ++ d := by
  simp [goJoin, str_append_assoc]

theorem tpe_ok_of_three {providerCfg : ProviderConfig} {resType : String}
    (hv : providerCfg.Version ≠ "") (hs : providerCfg.Source ≠ "") (ht : resType ≠ "")
    (h3 : (goSplit '/' providerCfg.Source).length = 3) :
    TerraformProviderExtensions providerCfg resType =
      .ok [("provider", GoValue.str (providerCfg.Source ++ "/" ++ providerCfg.Version)),
           ("providerMeta", GoValue.map providerCfg.ProviderMeta),
           ("resourceType", GoValue.str resType)] := by
  simp [TerraformProviderExtensions, hv, hs, ht, h3, Except.map, goJoin]

theorem tpe_ok_of_two {providerCfg : ProviderConfig} {resType : String}
    (hv : providerCfg.Version ≠ "") (hs : providerCfg.Source ≠ "") (ht : resType ≠ "")
    (h2 : (goSplit '/' providerCfg.Source).length = 2) :
    TerraformProviderExtensions providerCfg resType =
      .ok [("provider", GoValue.str
              (defaultTFHost ++ "/" ++ providerCfg.Source ++ "/" ++ providerCfg.Version)),
           ("providerMeta", GoValue.map providerCfg.ProviderMeta),
           ("resourceType", GoValue.str resType)] := by
  have h3 : (goSplit '/' providerCfg.Source).length ≠ 3 := by omega
  simp [TerraformProviderExtensions, hv, hs, ht, h2, h3, Except.map, goJoin_three]

theorem trid_ok_of_two {providerCfg : ProviderConfig} {resType resName : String}
    (hv : providerCfg.Version ≠ "") {ns nm : String}
    (h : goSplit '/' providerCfg.Source = [ns, nm]) :
    TerraformResourceID providerCfg resType resName =
      .ok (ns ++ ":" ++ nm ++ ":" ++ resType ++ ":" ++ resName) := by
  simp [TerraformResourceID, hv, h, goJoin_four]

theorem trid_ok_of_three {providerCfg : ProviderConfig} {resType resName : String}
    (hv : providerCfg.Version ≠ "") {hst ns nm : String}
    (h : goSplit '/' providerCfg.Source = [hst, ns, nm]) :
    TerraformResourceID providerCfg resType resName =
      .ok (ns ++ ":" ++ nm ++ ":" ++ resType ++ ":" ++ resName) := by
  simp [TerraformResourceID, hv, h, goJoin_four]

/-! Claim theorems. -/

/-- C1: for a provider config with non-empty version, source and resource
    type, a source splitting into two segments yields a `"provider"`
    extension equal to `"registry.terraform.io/" ++ source ++ "/" ++
    version`, and a source splitting into three segments yields
    `source ++ "/" ++ version`. -/
theorem terraformProviderExtensions_host_resolution (providerCfg : ProviderConfig)
    (resType : String) (hv : providerCfg.Version ≠ "") (hs : providerCfg.Source ≠ "")
    (ht : resType ≠ "") :
    ((goSplit '/' providerCfg.Source).length = 2 →
      ∃ ext, TerraformProviderExtensions providerCfg resType = .ok ext ∧
        ext.lookup "provider" = some (GoValue.str
          ("registry.terraform.io/" ++ providerCfg.Source ++ "/" ++ providerCfg.Version))) ∧
    ((goSplit '/' providerCfg.Source).length = 3 →
      ∃ ext, TerraformProviderExtensions providerCfg resType = .ok ext ∧
        ext.lookup "provider" = some (GoValue.str
          (providerCfg.Source ++ "/" ++ providerCfg.Version))) := by
  constructor
  · intro h2
    exact ⟨_, tpe_ok_of_two hv hs ht h2, rfl⟩
  · intro h3
    exact ⟨_, tpe_ok_of_three hv hs ht h3, rfl⟩

/-- Witness for C1 at the spec's two concrete scenarios (public registry
    shorthand and customized registry host). -/
theorem terraformProviderExtensions_host_resolution_witness :
    (∃ ext, TerraformProviderExtensions ⟨"hashicorp/aws", "5.0.0", []⟩ "aws_s3_bucket" =
        .ok ext ∧ ext.lookup "provider" =
          some (GoValue.str "registry.terraform.io/hashicorp/aws/5.0.0")) ∧
    (∃ ext, TerraformProviderExtensions
        ⟨"registry.customized.io/hashicorp/aws", "5.0.0", []⟩ "aws_s3_bucket" =
        .ok ext ∧ ext.lookup "provider" =
          some (GoValue.str "registry.customized.io/hashicorp/aws/5.0.0")) :=
  ⟨(terraformProviderExtensions_host_resolution ⟨"hashicorp/aws", "5.0.0", []⟩
      "aws_s3_bucket" (by decide) (by decide) (by decide)).1 rfl,
   (terraformProviderExtensions_host_resolution
      ⟨"registry.customized.io/hashicorp/aws", "5.0.0", []⟩
      "aws_s3_bucket" (by decide) (by decide) (by decide)).2 rfl⟩

/-- C2 counterexample: the source `"/"` splits into two segments that are
    both empty strings, yet neither `TerraformResourceID` nor
    `TerraformProviderExtensions` fails on it — the code checks only the
    segment count, not segment non-emptiness. -/
theorem invalidProviderSource_segment_counterexample :
    (goSplit '/' "/").length = 2 ∧ ("" ∈ goSplit '/' "/") ∧
    TerraformResourceID ⟨"/", "1", []⟩ "t" "n" = .ok "::t:n" ∧
    TerraformProviderExtensions ⟨"/", "1", []⟩ "t" =
      .ok [("provider", GoValue.str "registry.terraform.io///1"),
           ("providerMeta", GoValue.map []),
           ("resourceType", GoValue.str "t")] :=
  ⟨rfl, by decide, rfl, rfl⟩

/-- C2 (amended): with the other preconditions met, `TerraformResourceID`
    and `TerraformProviderExtensions` fail with `InvalidProviderSource`
    exactly when the source does not split on `/` into 2 or 3 segments;
    segment emptiness is not checked. -/
theorem invalidProviderSource_iff_segment_count (providerCfg : ProviderConfig)
    (resType resName : String) :
    (providerCfg.Version ≠ "" →
      (TerraformResourceID providerCfg resType resName =
          .error (.InvalidProviderSource providerCfg.Source) ↔
        (goSplit '/' providerCfg.Source).length ≠ 2 ∧
          (goSplit '/' providerCfg.Source).length ≠ 3)) ∧
    (providerCfg.Version ≠ "" → providerCfg.Source ≠ "" → resType ≠ "" →
      (TerraformProviderExtensions providerCfg resType =
          .error (.InvalidProviderSource providerCfg.Source) ↔
        (goSplit '/' providerCfg.Source).length ≠ 2 ∧
          (goSplit '/' providerCfg.Source).length ≠ 3)) := by
  constructor
  · intro hv
    by_cases h3 : (goSplit '/' providerCfg.Source).length = 3
    · simp [TerraformResourceID, hv, h3]
    · by_cases h2 : (goSplit '/' providerCfg.Source).length = 2
      · simp [TerraformResourceID, hv, h2, h3]
      · simp [TerraformResourceID, hv, h2, h3]
  · intro hv hs ht
    by_cases h3 : (goSplit '/' providerCfg.Source).length = 3
    · simp [TerraformProviderExtensions, hv, hs, ht, h3, Except.map]
    · by_cases h2 : (goSplit '/' providerCfg.Source).length = 2
      · simp [TerraformProviderExtensions, hv, hs, ht, h2, h3, Except.map]
      · simp [TerraformProviderExtensions, hv, hs, ht, h2, h3, Except.map]

/-- Witness for the amended C2: a four-segment source fails in both
    functions. -/
theorem invalidProviderSource_iff_segment_count_witness :
    TerraformResourceID ⟨"a/b/c/d", "1", []⟩ "t" "n" =
      .error (.InvalidProviderSource "a/b/c/d") ∧
    TerraformProviderExtensions ⟨"a/b/c/d", "1", []⟩ "t" =
      .error (.InvalidProviderSource "a/b/c/d") :=
  ⟨((invalidProviderSource_iff_segment_count ⟨"a/b/c/d", "1", []⟩ "t" "n").1
      (by decide)).mpr ⟨by decide, by decide⟩,
   ((invalidProviderSource_iff_segment_count ⟨"a/b/c/d", "1", []⟩ "t" "n").2
      (by decide) (by decide) (by decide)).mpr ⟨by decide, by decide⟩⟩

/-- C3: with a non-empty version, `TerraformResourceID` on a two-segment
    source `[ns, nm]` or a three-segment source `[host, ns, nm]` returns
    `ns ++ ":" ++ nm ++ ":" ++ resType ++ ":" ++ resName`; the host
    segment never appears in the id and the version never appears in the
    id — configs differing only in host or only in (non-empty) version
    yield equal ids. -/
theorem terraformResourceID_shape (providerCfg : ProviderConfig)
    (resType resName : String) (hv : providerCfg.Version ≠ "") :
    (∀ ns nm, goSplit '/' providerCfg.Source = [ns, nm] →
      TerraformResourceID providerCfg resType resName =
        .ok (ns ++ ":" ++ nm ++ ":" ++ resType ++ ":" ++ resName)) ∧
    (∀ hst ns nm, goSplit '/' providerCfg.Source = [hst, ns, nm] →
      TerraformResourceID providerCfg resType resName =
        .ok (ns ++ ":" ++ nm ++ ":" ++ resType ++ ":" ++ resName)) ∧
    (∀ (providerCfg' : ProviderConfig) hst hst' ns nm, providerCfg'.Version ≠ "" →
      goSplit '/' providerCfg.Source = [hst, ns, nm] →
      goSplit '/' providerCfg'.Source = [hst', ns, nm] →
      TerraformResourceID providerCfg resType resName =
        TerraformResourceID providerCfg' resType resName) ∧
    (∀ v', v' ≠ "" →
      TerraformResourceID { providerCfg with Version := v' } resType resName =
        TerraformResourceID providerCfg resType resName) := by
  refine ⟨?_, ?_, ?_, ?_⟩
  · intro ns nm h
    exact trid_ok_of_two hv h
  · intro hst ns nm h
    exact trid_ok_of_three hv h
  · intro providerCfg' hst hst' ns nm hv' h h'
    rw [trid_ok_of_three hv h, trid_ok_of_three hv' h']
  · intro v' hv'
    show TerraformResourceID ⟨providerCfg.Source, v', providerCfg.ProviderMeta⟩
      resType resName = _
    simp only [TerraformResourceID, hv, hv', if_false]

/-- Witness for C3: the spec's concrete id, host-independence between two
    customized registries, and version-independence. -/
theorem terraformResourceID_shape_witness :
    TerraformResourceID ⟨"hashicorp/aws", "5.0.0", []⟩ "aws_s3_bucket" "b" =
      .ok "hashicorp:aws:aws_s3_bucket:b" ∧
    TerraformResourceID ⟨"registry.customized.io/hashicorp/aws", "5.0.0", []⟩
        "aws_s3_bucket" "b" =
      TerraformResourceID ⟨"another.host/hashicorp/aws", "5.0.0", []⟩
        "aws_s3_bucket" "b" ∧
    TerraformResourceID ⟨"hashicorp/aws", "9.9.9", []⟩ "aws_s3_bucket" "b" =
      TerraformResourceID ⟨"hashicorp/aws", "5.0.0", []⟩ "aws_s3_bucket" "b" :=
  ⟨(terraformResourceID_shape ⟨"hashicorp/aws", "5.0.0", []⟩ "aws_s3_bucket" "b"
      (by decide)).1 "hashicorp" "aws" rfl,
   (terraformResourceID_shape ⟨"registry.customized.io/hashicorp/aws", "5.0.0", []⟩
      "aws_s3_bucket" "b" (by decide)).2.2.1 ⟨"another.host/hashicorp/aws", "5.0.0", []⟩
      "registry.customized.io" "another.host" "hashicorp" "aws" (by decide) rfl rfl,
   (terraformResourceID_shape ⟨"hashicorp/aws", "5.0.0", []⟩ "aws_s3_bucket" "b"
      (by decide)).2.2.2 "9.9.9" (by decide)⟩

/-- C4: `TerraformProviderExtensions` checks its failure conditions in
    declared order — empty version fails with the empty-version error
    regardless of the other inputs, then empty source, then empty
    resource type, then a source with a segment count other than 2 or 3
    fails with the invalid-source error. -/
theorem terraformProviderExtensions_check_order (providerCfg : ProviderConfig)
    (resType : String) :
    (providerCfg.Version = "" →
      TerraformProviderExtensions providerCfg resType =
        .error .EmptyTFProviderVersion) ∧
    (providerCfg.Version ≠ "" → providerCfg.Source = "" →
      TerraformProviderExtensions providerCfg resType = .error .EmptySource) ∧
    (providerCfg.Version ≠ "" → providerCfg.Source ≠ "" → resType = "" →
      TerraformProviderExtensions providerCfg resType = .error .EmptyResourceType) ∧
    (providerCfg.Version ≠ "" → providerCfg.Source ≠ "" → resType ≠ "" →
      (goSplit '/' providerCfg.Source).length ≠ 2 →
      (goSplit '/' providerCfg.Source).length ≠ 3 →
      TerraformProviderExtensions providerCfg resType =
        .error (.InvalidProviderSource providerCfg.Source)) := by
  refine ⟨?_, ?_, ?_, ?_⟩
  · intro hv
    simp [TerraformProviderExtensions, hv]
  · intro hv hs
    simp [TerraformProviderExtensions, hv, hs]
  · intro hv hs ht
    simp [TerraformProviderExtensions, hv, hs, ht]
  · intro hv hs ht h2 h3
    simp [TerraformProviderExtensions, hv, hs, ht, h2, h3, Except.map]

/-- Witness for C4: each of the four failure branches at a concrete
    input. -/
theorem terraformProviderExtensions_check_order_witness :
    TerraformProviderExtensions ⟨"hashicorp/aws", "", []⟩ "t" =
      .error .EmptyTFProviderVersion ∧
    TerraformProviderExtensions ⟨"", "1", []⟩ "t" = .error .EmptySource ∧
    TerraformProviderExtensions ⟨"hashicorp/aws", "1", []⟩ "" =
      .error .EmptyResourceType ∧
    TerraformProviderExtensions ⟨"a/b/c/d", "1", []⟩ "t" =
      .error (.InvalidProviderSource "a/b/c/d") :=
  ⟨(terraformProviderExtensions_check_order ⟨"hashicorp/aws", "", []⟩ "t").1 rfl,
   (terraformProviderExtensions_check_order ⟨"", "1", []⟩ "t").2.1 (by decide) rfl,
   (terraformProviderExtensions_check_order ⟨"hashicorp/aws", "1", []⟩ "").2.2.1
      (by decide) (by decide) rfl,
   (terraformProviderExtensions_check_order ⟨"a/b/c/d", "1", []⟩ "t").2.2.2
      (by decide) (by decide) (by decide) (by decide) (by decide)⟩

/-- C5: whenever `TerraformProviderExtensions` succeeds, the returned map
    has exactly the keys `provider`, `providerMeta`, `resourceType`, the
    `providerMeta` entry is the input config's `ProviderMeta` map itself,
    and the `resourceType` entry is the resource-type argument. -/
theorem terraformProviderExtensions_keys (providerCfg : ProviderConfig)
    (resType : String) (ext : List (String × GoValue))
    (h : TerraformProviderExtensions providerCfg resType = .ok ext) :
    ext.map Prod.fst = ["provider", "providerMeta", "resourceType"] ∧
    ext.lookup "providerMeta" = some (GoValue.map providerCfg.ProviderMeta) ∧
    ext.lookup "resourceType" = some (GoValue.str resType) := by
  by_cases hv : providerCfg.Version = ""
  · simp [TerraformProviderExtensions, hv] at h
  by_cases hs : providerCfg.Source = ""
  · simp [TerraformProviderExtensions, hv, hs] at h
  by_cases ht : resType = ""
  · simp [TerraformProviderExtensions, hv, hs, ht] at h
  by_cases h3 : (goSplit '/' providerCfg.Source).length = 3
  · rw [tpe_ok_of_three hv hs ht h3] at h
    injection h with h
    subst h
    exact ⟨rfl, rfl, rfl⟩
  by_cases h2 : (goSplit '/' providerCfg.Source).length = 2
  · rw [tpe_ok_of_two hv hs ht h2] at h
    injection h with h
    subst h
    exact ⟨rfl, rfl, rfl⟩
  · simp [TerraformProviderExtensions, hv, hs, ht, h2, h3, Except.map] at h

/-- Witness for C5 at the spec's concrete scenario. -/
theorem terraformProviderExtensions_keys_witness :
    ([("provider", GoValue.str "registry.terraform.io/hashicorp/aws/5.0.0"),
      ("providerMeta", GoValue.map [("region", GoValue.str "us-east-1")]),
      ("resourceType", GoValue.str "aws_s3_bucket")] :
        List (String × GoValue)).map Prod.fst =
      ["provider", "providerMeta", "resourceType"] ∧
    ([("provider", GoValue.str "registry.terraform.io/hashicorp/aws/5.0.0"),
      ("providerMeta", GoValue.map [("region", GoValue.str "us-east-1")]),
      ("resourceType", GoValue.str "aws_s3_bucket")] :
        List (String × GoValue)).lookup "providerMeta" =
      some (GoValue.map [("region", GoValue.str "us-east-1")]) ∧
    ([("provider", GoValue.str "registry.terraform.io/hashicorp/aws/5.0.0"),
      ("providerMeta", GoValue.map [("region", GoValue.str "us-east-1")]),
      ("resourceType", GoValue.str "aws_s3_bucket")] :
        List (String × GoValue)).lookup "resourceType" =
      some (GoValue.str "aws_s3_bucket") :=
  terraformProviderExtensions_keys
    ⟨"hashicorp/aws", "5.0.0", [("region", GoValue.str "us-east-1")]⟩
    "aws_s3_bucket" _ rfl

/-- C8: `WrapTFResourceToKusionResource` fails exactly when
    `TerraformProviderExtensions` fails on the same config and resource
    type, propagating the error unchanged with no resource record; on
    success it returns the Terraform-typed record with the supplied id,
    attributes, dependencies and the computed extensions. -/
theorem wrapTFResource_propagation (providerCfg : ProviderConfig)
    (resType resourceID : String) (attributes : List (String × GoValue))
    (dependsOn : List String) :
    (∀ e, WrapTFResourceToKusionResource providerCfg resType resourceID
        attributes dependsOn = .error e ↔
      TerraformProviderExtensions providerCfg resType = .error e) ∧
    (∀ ext, TerraformProviderExtensions providerCfg resType = .ok ext →
      WrapTFResourceToKusionResource providerCfg resType resourceID
          attributes dependsOn =
        .ok { ID := resourceID, type := .Terraform, Attributes := attributes,
              DependsOn := dependsOn, Extensions := ext }) := by
  constructor
  · intro e
    unfold WrapTFResourceToKusionResource
    cases h : TerraformProviderExtensions providerCfg resType <;>
      simp [Except.map]
  · intro ext h
    simp [WrapTFResourceToKusionResource, h, Except.map]

/-- Witness for C8: error propagation on an empty version and a full
    record on success. -/
theorem wrapTFResource_propagation_witness :
    WrapTFResourceToKusionResource ⟨"hashicorp/aws", "", []⟩ "t" "id" [] [] =
      .error .EmptyTFProviderVersion ∧
    WrapTFResourceToKusionResource ⟨"hashicorp/aws", "5.0.0", []⟩
        "aws_s3_bucket" "id" [("bucket", GoValue.str "b")] ["dep"] =
      .ok { ID := "id", type := .Terraform,
            Attributes := [("bucket", GoValue.str "b")],
            DependsOn := ["dep"],
            Extensions :=
              [("provider", GoValue.str "registry.terraform.io/hashicorp/aws/5.0.0"),
               ("providerMeta", GoValue.map []),
               ("resourceType", GoValue.str "aws_s3_bucket")] } :=
  ⟨((wrapTFResource_propagation ⟨"hashicorp/aws", "", []⟩ "t" "id" [] []).1
      .EmptyTFProviderVersion).mpr rfl,
   (wrapTFResource_propagation ⟨"hashicorp/aws", "5.0.0", []⟩ "aws_s3_bucket" "id"
      [("bucket", GoValue.str "b")] ["dep"]).2 _ rfl⟩

/-- C6: for every typeMeta and objectMeta, `KubernetesResourceID` returns
    `apiVersion ++ ":" ++ kind ++ ":" ++ namespace ++ ":" ++ name` when the
    namespace is non-empty and `apiVersion ++ ":" ++ kind ++ ":" ++ name`
    when the namespace is empty; all four inputs appear unchanged and the
    empty namespace contributes no empty token. -/
theorem kubernetesResourceID_concat (typeMeta : TypeMeta) (objectMeta : ObjectMeta) :
    (objectMeta.Namespace ≠ "" →
      KubernetesResourceID typeMeta objectMeta =
        typeMeta.APIVersion ++ ":" ++ typeMeta.Kind ++ ":" ++
          objectMeta.Namespace ++ ":" ++ objectMeta.Name) ∧
    (objectMeta.Namespace = "" →
      KubernetesResourceID typeMeta objectMeta =
        typeMeta.APIVersion ++ ":" ++ typeMeta.Kind ++ ":" ++ objectMeta.Name) := by
  constructor
  · intro h
    simp [KubernetesResourceID, h]
  · intro h
    simp [KubernetesResourceID, h]

/-- Witness for C6 at the spec's two concrete scenarios. -/
theorem kubernetesResourceID_concat_witness :
    KubernetesResourceID ⟨"apps/v1", "Deployment"⟩ ⟨"nginx", "nginx-deployment"⟩ =
      "apps/v1:Deployment:nginx:nginx-deployment" ∧
    KubernetesResourceID ⟨"v1", "Namespace"⟩ ⟨"", "nginx"⟩ = "v1:Namespace:nginx" := by
  constructor
  · rw [(kubernetesResourceID_concat ⟨"apps/v1", "Deployment"⟩
      ⟨"nginx", "nginx-deployment"⟩).1 (by decide)]
    rfl
  · rw [(kubernetesResourceID_concat ⟨"v1", "Namespace"⟩ ⟨"", "nginx"⟩).2 rfl]
    rfl

/-- C7 counterexample: with an apiVersion that itself contains a colon,
    the id of a namespace-less object splits into four segments, not
    three, refuting the unconditional segment-count claim. -/
theorem kubernetesResourceID_segment_count_counterexample :
    (ObjectMeta.mk "" "n").Namespace = "" ∧
    (goSplit ':' (KubernetesResourceID ⟨"a:b", "K"⟩ ⟨"", "n"⟩)).length ≠ 3 := by
  exact ⟨rfl, by decide⟩

/-- C7 (amended): when none of the four metadata strings contains a colon,
    the id splits on `:` into exactly three segments for an empty
    namespace and exactly four for a non-empty one. -/
theorem kubernetesResourceID_segment_count (typeMeta : TypeMeta) (objectMeta : ObjectMeta)
    (hav : ':' ∉ typeMeta.APIVersion.data) (hk : ':' ∉ typeMeta.Kind.data)
    (hns : ':' ∉ objectMeta.Namespace.data) (hn : ':' ∉ objectMeta.Name.data) :
    (objectMeta.Namespace = "" →
      (goSplit ':' (KubernetesResourceID typeMeta objectMeta)).length = 3) ∧
    (objectMeta.Namespace ≠ "" →
      (goSplit ':' (KubernetesResourceID typeMeta objectMeta)).length = 4) := by
  constructor
  · intro h
    have hdata : (KubernetesResourceID typeMeta objectMeta).data =
        typeMeta.APIVersion.data ++ ':' :: (typeMeta.Kind.data ++ ':' :: objectMeta.Name.data) := by
      simp [KubernetesResourceID, h, String.data_append, colon_data]
    rw [goSplit_length, hdata, splitChar_sep hav, splitChar_sep hk,
      splitChar_of_not_mem hn]
    rfl
  · intro h
    have hdata : (KubernetesResourceID typeMeta objectMeta).data =
        typeMeta.APIVersion.data ++ ':' :: (typeMeta.Kind.data ++
          ':' :: (objectMeta.Namespace.data ++ ':' :: objectMeta.Name.data)) := by
      simp [KubernetesResourceID, h, String.data_append, colon_data]
    rw [goSplit_length, hdata, splitChar_sep hav, splitChar_sep hk,
      splitChar_sep hns, splitChar_of_not_mem hn]
    rfl

/-- Witness for the amended C7 at colon-free concrete metadata. -/
theorem kubernetesResourceID_segment_count_witness :
    (goSplit ':' (KubernetesResourceID ⟨"apps/v1", "Deployment"⟩ ⟨"", "web"⟩)).length = 3 ∧
    (goSplit ':' (KubernetesResourceID ⟨"apps/v1", "Deployment"⟩ ⟨"nginx", "web"⟩)).length = 4 :=
  ⟨(kubernetesResourceID_segment_count ⟨"apps/v1", "Deployment"⟩ ⟨"", "web"⟩
      (by decide) (by decide) (by decide) (by decide)).1 rfl,
   (kubernetesResourceID_segment_count ⟨"apps/v1", "Deployment"⟩ ⟨"nginx", "web"⟩
      (by decide) (by decide) (by decide) (by decide)).2 (by decide)⟩

/-- C9 counterexample: a provider metadata map binding `"region"` to the
    empty string makes `TerraformProviderRegion` return the empty string
    while the key is present, refuting "returns the empty string only
    when the key is absent". -/
theorem terraformProviderRegion_empty_string_counterexample :
    (([("region", GoValue.str "")] : GenericConfig).lookup "region" = some (GoValue.str "")) ∧
    TerraformProviderRegion ⟨"hashicorp/aws", "1", [("region", GoValue.str "")]⟩ =
      .ok "" :=
  ⟨rfl, rfl⟩

/-- C9 (amended): `TerraformProviderRegion` returns the empty string when
    `"region"` is absent from the provider metadata, returns the bound
    string when `"region"` is bound to a string (hence also returns the
    empty string for a bound empty string), and panics on the unchecked
    type assertion when `"region"` is bound to a non-string value. -/
theorem terraformProviderRegion_spec (providerCfg : ProviderConfig) :
    (providerCfg.ProviderMeta.lookup "region" = none →
      TerraformProviderRegion providerCfg = .ok "") ∧
    (∀ s, providerCfg.ProviderMeta.lookup "region" = some (GoValue.str s) →
      TerraformProviderRegion providerCfg = .ok s) ∧
    (∀ v, providerCfg.ProviderMeta.lookup "region" = some v →
      (∀ s, v ≠ GoValue.str s) → TerraformProviderRegion providerCfg = .panicked) := by
  refine ⟨?_, ?_, ?_⟩
  · intro h
    simp [TerraformProviderRegion, h]
  · intro s h
    simp [TerraformProviderRegion, h]
  · intro v h hv
    cases v <;> simp [TerraformProviderRegion, h]
    exact hv _ rfl

/-- Witness for the amended C9: absent key, string-valued region, and a
    non-string region. -/
theorem terraformProviderRegion_spec_witness :
    TerraformProviderRegion ⟨"hashicorp/aws", "1", []⟩ = .ok "" ∧
    TerraformProviderRegion ⟨"hashicorp/aws", "1",
      [("region", GoValue.str "us-east-1")]⟩ = .ok "us-east-1" ∧
    TerraformProviderRegion ⟨"hashicorp/aws", "1",
      [("region", GoValue.int 3)]⟩ = .panicked :=
  ⟨(terraformProviderRegion_spec _).1 rfl,
   (terraformProviderRegion_spec _).2.1 _ rfl,
   (terraformProviderRegion_spec _).2.2 _ rfl (fun _ h => GoValue.noConfusion h)⟩

/-- C10: a resource argument that does not implement `runtime.Object`
    makes `WrapK8sResourceToKusionResource` panic on the unchecked type
    assertion before any error return, so a conversion-error result is
    reachable only for `runtime.Object` inputs. -/
theorem wrapK8sResource_panics_on_non_object (id : String) :
    (∀ v, WrapK8sResourceToKusionResource id (.other v) = .panicked) ∧
    (∀ resource e, WrapK8sResourceToKusionResource id resource = .err e →
      ∃ o, resource = .obj o ∧ o.unstructured = .error e) := by
  constructor
  · intro v
    rfl
  · intro resource e h
    cases resource with
    | other v => exact absurd h (by simp [WrapK8sResourceToKusionResource])
    | obj o =>
      refine ⟨o, rfl, ?_⟩
      cases hu : o.unstructured with
      | error e' =>
        simp [WrapK8sResourceToKusionResource, hu] at h
        rw [h]
      | ok u =>
        simp [WrapK8sResourceToKusionResource, hu] at h

/-- Witness for C10: a non-object argument panics, and a failing
    conversion on a genuine object is the only error path. -/
theorem wrapK8sResource_panics_on_non_object_witness :
    WrapK8sResourceToKusionResource "i" (.other GoValue.null) = .panicked ∧
    ∃ o, (K8sAny.obj ⟨"g", .error "boom"⟩) = K8sAny.obj o ∧
      o.unstructured = .error "boom" :=
  ⟨(wrapK8sResource_panics_on_non_object "i").1 _,
   (wrapK8sResource_panics_on_non_object "i").2 _ "boom" rfl⟩

end KusionModule
